import Mathlib

/-!
Verification development for the zero-cost-Jarvis voice assistant.

The Python sources are shallowly embedded: pure string manipulation is
translated to functions on `List Char` mirroring Python string semantics
(`find`, `rfind`, slicing, `strip`, `lower`, substring containment,
`split(sep, 1)`, `replace`), `json.loads` is modelled by an executable
JSON parser, and the stateful components (the agentic brain, the main
conversation loop, the reflex layer, the TTS engine) are modelled as
explicit state-passing functions.  External side-effecting calls
(subprocess, webbrowser, the LLM backend, pygame) are modelled as
environment-supplied results plus an explicit effect trace, and Python
exceptions are modelled with an explicit error type threaded through
`Except`-style result constructors.
-/

set_option autoImplicit false

namespace Jarvis

/-! ### Python string primitives, over `List Char` -/

/-- The character U+007B, written via code point to keep sources plain. -/
def lbrace : Char := Char.ofNat 123

/-- The character U+007D, written via code point. -/
def rbrace : Char := Char.ofNat 125

/-- Python `str.lower()` (ASCII case folding, which covers all inputs used). -/
def pyLower (s : List Char) : List Char := s.map Char.toLower

/-- Python `hay.find(needle)`: index of the first occurrence, `none` for `-1`. -/
def strFind (needle : List Char) : List Char → Option Nat
  | [] => if needle.isEmpty then some 0 else none
  | c :: t =>
    if needle.isPrefixOf (c :: t) then some 0
    else (strFind needle t).map (· + 1)

/-- Python `needle in hay` substring containment. -/
def containsSub (needle hay : List Char) : Bool := (strFind needle hay).isSome

/-- Python `hay.rfind(needle)`: index of the last occurrence, `none` for `-1`. -/
def strRfind (needle hay : List Char) : Option Nat :=
  ((List.range (hay.length + 1)).filter (fun i => needle.isPrefixOf (hay.drop i))).getLast?

/-- Python slicing `s[a:b]` for `0 ≤ a ≤ b` (as used in the sources). -/
def pySlice (s : List Char) (a b : Nat) : List Char := (s.take b).drop a

/-- Python `s[:n]`. -/
def pyTake (n : Nat) (s : List Char) : List Char := s.take n

/-- Python whitespace for `str.strip()`. -/
def isPySpace (c : Char) : Bool :=
  c = ' ' ∨ c = '\t' ∨ c = '\n' ∨ c = '\r' ∨ c = Char.ofNat 11 ∨ c = Char.ofNat 12

/-- Python `str.strip()`. -/
def stripChars (s : List Char) : List Char :=
  ((s.dropWhile isPySpace).reverse.dropWhile isPySpace).reverse

/-- Python `s.startswith(p)`. -/
def startsWith (p s : List Char) : Bool := p.isPrefixOf s

/-- Helper for `strReplace`, with fuel bounded by the haystack length. -/
def strReplaceAux (needle rep : List Char) : Nat → List Char → List Char
  | 0, hay => hay
  | _ + 1, [] => []
  | fuel + 1, c :: t =>
    if ¬needle.isEmpty ∧ needle.isPrefixOf (c :: t) then
      rep ++ strReplaceAux needle rep fuel (List.drop needle.length (c :: t))
    else
      c :: strReplaceAux needle rep fuel t

/-- Python `hay.replace(needle, rep)` for nonempty `needle`. -/
def strReplace (needle rep hay : List Char) : List Char :=
  strReplaceAux needle rep hay.length hay

/-- Python `hay.split(sep, 1)` reduced to its "after" component: returns
`(before, after)` of the first occurrence of `sep`, scanning left to right,
like the generated two-element list. -/
def splitOnceAux (sep : List Char) : List Char → Option (List Char × List Char)
  | [] => if sep.isEmpty then some ([], []) else none
  | c :: t =>
    if sep.isPrefixOf (c :: t) then some ([], List.drop sep.length (c :: t))
    else (splitOnceAux sep t).map (fun p => (c :: p.1, p.2))

/-! ### A model of `json.loads`

An executable JSON parser over `List Char`, used to embed the two
`json.loads` calls in `AgenticBrain._execute_tool`.  Python decodes a JSON
object into a `dict`; duplicate keys are resolved last-wins, modelled by
`pyDictGet` searching the reversed field list. -/

/-- JSON values as decoded by `json.loads`. -/
inductive JValue where
  | jnull : JValue
  | jbool (b : Bool) : JValue
  | jnum (lexeme : String) : JValue
  | jstr (s : String) : JValue
  | jarr (xs : List JValue) : JValue
  | jobj (fields : List (String × JValue)) : JValue

/-- JSON whitespace skipping (matches Python's json lexer). -/
def skipWs (cs : List Char) : List Char :=
  cs.dropWhile (fun c => c = ' ' ∨ c = '\t' ∨ c = '\n' ∨ c = '\r')

/-- Hex digit value. -/
def hexVal (c : Char) : Option Nat :=
  if c.isDigit then some (c.toNat - 48)
  else if 'a' ≤ c ∧ c ≤ 'f' then some (c.toNat - 97 + 10)
  else if 'A' ≤ c ∧ c ≤ 'F' then some (c.toNat - 65 + 10)
  else none

/-- Parse the body of a JSON string literal (after the opening quote);
returns the decoded characters and the input past the closing quote. -/
def parseStrBody : List Char → Option (List Char × List Char)
  | [] => none
  | c :: t =>
    if c = '"' then some ([], t)
    else if c = '\\' then
      match t with
      | [] => none
      | e :: t2 =>
        if e = 'u' then
          match t2 with
          | a :: b :: c2 :: d :: t3 =>
            match hexVal a, hexVal b, hexVal c2, hexVal d with
            | some x, some y, some z, some w =>
              (parseStrBody t3).map
                (fun p => (Char.ofNat (((x * 16 + y) * 16 + z) * 16 + w) :: p.1, p.2))
            | _, _, _, _ => none
          | _ => none
        else
          match
            (if e = '"' then some '"'
             else if e = '\\' then some '\\'
             else if e = '/' then some '/'
             else if e = 'n' then some '\n'
             else if e = 't' then some '\t'
             else if e = 'r' then some '\r'
             else if e = 'b' then some (Char.ofNat 8)
             else if e = 'f' then some (Char.ofNat 12)
             else none) with
          | some r => (parseStrBody t2).map (fun p => (r :: p.1, p.2))
          | none => none
    else (parseStrBody t).map (fun p => (c :: p.1, p.2))

/-- Parse a JSON number, returning its lexeme and the rest. -/
def parseNum (cs : List Char) : Option (List Char × List Char) :=
  let (sign, cs1) :=
    match cs with
    | '-' :: t => (['-'], t)
    | _ => (([] : List Char), cs)
  let intPart := cs1.takeWhile Char.isDigit
  let cs2 := cs1.dropWhile Char.isDigit
  if intPart.isEmpty then none
  else
    let (fracPart, cs3) :=
      match cs2 with
      | '.' :: t =>
        let ds := t.takeWhile Char.isDigit
        if ds.isEmpty then (([] : List Char), cs2)
        else ('.' :: ds, t.dropWhile Char.isDigit)
      | _ => ([], cs2)
    let (expPart, cs4) :=
      match cs3 with
      | e :: t =>
        if e = 'e' ∨ e = 'E' then
          let (sgn, t1) :=
            match t with
            | s :: t2 => if s = '+' ∨ s = '-' then ([s], t2) else (([] : List Char), t)
            | [] => ([], t)
          let ds := t1.takeWhile Char.isDigit
          if ds.isEmpty then (([] : List Char), cs3)
          else (e :: (sgn ++ ds), t1.dropWhile Char.isDigit)
        else ([], cs3)
      | [] => ([], cs3)
    some (sign ++ intPart ++ fracPart ++ expPart, cs4)

/-- Parsing mode for the fuel-indexed JSON parser: a single value, the
fields of an object (`0`: closing brace allowed immediately, `1`: a field
is required), or the elements of an array. -/
inductive PMode where
  | value : PMode
  | objFields0 : PMode
  | objFields1 : PMode
  | arrElems0 : PMode
  | arrElems1 : PMode

/-- Result of one parsing step. -/
inductive PRes where
  | v (x : JValue) : PRes
  | fields (fs : List (String × JValue)) : PRes
  | elems (xs : List JValue) : PRes

/-- Fuel-indexed recursive-descent JSON parser. -/
def parseF : Nat → PMode → List Char → Option (PRes × List Char)
  | 0, _, _ => none
  | fuel + 1, .value, cs =>
    match skipWs cs with
    | [] => none
    | c :: t =>
      if c = lbrace then
        match parseF fuel .objFields0 t with
        | some (.fields fs, rest) => some (.v (.jobj fs), rest)
        | _ => none
      else if c = '[' then
        match parseF fuel .arrElems0 t with
        | some (.elems xs, rest) => some (.v (.jarr xs), rest)
        | _ => none
      else if c = '"' then
        (parseStrBody t).map (fun p => (.v (.jstr (String.mk p.1)), p.2))
      else if c = 't' then
        if ['r', 'u', 'e'].isPrefixOf t then some (.v (.jbool true), t.drop 3) else none
      else if c = 'f' then
        if ['a', 'l', 's', 'e'].isPrefixOf t then some (.v (.jbool false), t.drop 4) else none
      else if c = 'n' then
        if ['u', 'l', 'l'].isPrefixOf t then some (.v .jnull, t.drop 3) else none
      else if c = '-' ∨ c.isDigit then
        (parseNum (c :: t)).map (fun p => (.v (.jnum (String.mk p.1)), p.2))
      else none
  | fuel + 1, .objFields0, cs =>
    match skipWs cs with
    | c :: t =>
      if c = rbrace then some (.fields [], t)
      else parseF fuel .objFields1 cs
    | [] => none
  | fuel + 1, .objFields1, cs =>
    match skipWs cs with
    | c :: t =>
      if c = '"' then
        match parseStrBody t with
        | some (key, r1) =>
          match skipWs r1 with
          | c2 :: r2 =>
            if c2 = ':' then
              match parseF fuel .value r2 with
              | some (.v v, r3) =>
                match skipWs r3 with
                | c3 :: r4 =>
                  if c3 = ',' then
                    match parseF fuel .objFields1 r4 with
                    | some (.fields fs, rest) =>
                      some (.fields ((String.mk key, v) :: fs), rest)
                    | _ => none
                  else if c3 = rbrace then
                    some (.fields [(String.mk key, v)], r4)
                  else none
                | [] => none
              | _ => none
            else none
          | [] => none
        | none => none
      else none
    | [] => none
  | fuel + 1, .arrElems0, cs =>
    match skipWs cs with
    | c :: t =>
      if c = ']' then some (.elems [], t)
      else parseF fuel .arrElems1 cs
    | [] => none
  | fuel + 1, .arrElems1, cs =>
    match parseF fuel .value cs with
    | some (.v v, r1) =>
      match skipWs r1 with
      | c :: r2 =>
        if c = ',' then
          match parseF fuel .arrElems1 r2 with
          | some (.elems xs, rest) => some (.elems (v :: xs), rest)
          | _ => none
        else if c = ']' then some (.elems [v], r2)
        else none
      | [] => none
    | _ => none

/-- The model of `json.loads` on a character list: parse one value and
require only whitespace to remain.  `none` models `json.JSONDecodeError`. -/
def jsonParse (cs : List Char) : Option JValue :=
  match parseF (cs.length + 1) .value cs with
  | some (.v v, rest) => if (skipWs rest).isEmpty then some v else none
  | _ => none

/-- Python `dict.get(k, default)` on a decoded object, with the last-wins
semantics `json.loads` gives duplicate keys. -/
def pyDictGet (fs : List (String × JValue)) (k : String) : Option JValue :=
  (fs.reverse.find? (fun p => p.1 == k)).map (fun p => p.2)

/-! ### src/brain/tools.py -/

/-- `DESTRUCTIVE_PATTERNS` from src/brain/tools.py, verbatim. -/
def DESTRUCTIVE_PATTERNS : List String :=
  ["rm ", "del ", "rmdir", "remove", "delete",
   "format", "fdisk",
   "drop ", "truncate",
   "shutdown", "restart", "reboot",
   "> ", ">>",
   "git push --force", "git reset --hard"]

/-- `is_destructive_command` from src/brain/tools.py: any pattern is a
substring of the lowercased command. -/
def is_destructive_command (command : String) : Bool :=
  DESTRUCTIVE_PATTERNS.any (fun p => containsSub p.data (pyLower command.data))

/-! ### src/brain/llm.py — `AgenticBrain`

The brain's mutable fields that the claims concern are `_connected` and
`_pending_confirmation`.  Python exceptions are modelled by `PyErr`;
`BranchOut.raise` is an exception propagating out of a block,
`BranchOut.exitProc` is `sys.exit` (`SystemExit` is not an `Exception`
subclass, so `except Exception` does not stop it).  External
side-effecting calls are summarised by a `ToolEnv` of result suppliers
plus an `Effect` trace recording which handlers actually ran. -/

/-- A Python exception value (its class and message collapsed to a tag). -/
inductive PyErr where
  | attrError (msg : String)
  | exc (msg : String)
deriving DecidableEq

/-- The `str(e)` rendering used by the handlers. -/
def pyErrMsg : PyErr → String
  | .attrError m => m
  | .exc m => m

/-- `self._pending_confirmation`, when set: the stored command and the
question returned to the user. -/
structure PendingConf where
  command : String
  question : String
deriving DecidableEq

/-- The brain state relevant to the claims. -/
structure BrainState where
  connected : Bool
  pending : Option PendingConf
deriving DecidableEq

/-- Trace of executed tool side effects.  `runCommand` is a
`_run_command` invocation (the actual shell execution), `powershell` an
`execute_powershell` invocation, `toolCall` any other dispatched handler,
`logInteraction` the memory write in `think`. -/
inductive Effect where
  | runCommand (cmd : String)
  | powershell (script : String)
  | toolCall (tool : String)
  | logInteraction
deriving DecidableEq

/-- Results of the external calls made by tool handlers.
`runCommandResult` is total because `_run_command` catches every
`Exception` itself (returning the output, a timeout message or a
`Failed:` message); the PowerShell runner and the remaining handlers may
raise, which `_execute_tool`-level code must deal with. -/
structure ToolEnv where
  runCommandResult : String → String
  powershell : String → Except PyErr String
  misc : String → List (String × JValue) → Except PyErr String

/-- Outcome of a Python block: a returned string, a propagating
exception, or a propagating `SystemExit`. -/
inductive BranchOut where
  | val (s : String)
  | raise (e : PyErr)
  | exitProc
deriving DecidableEq

/-- `dict.get(k, "")` followed by use as a `str`: a missing key yields
the default, a string value is used directly; any non-string value makes
the handler's string operations raise (modelled as a generic
`AttributeError`, as e.g. `int.lower` does not exist). -/
def getStrArg (fs : List (String × JValue)) (k : String) : Except PyErr String :=
  match pyDictGet fs k with
  | none => .ok ""
  | some (.jstr s) => .ok s
  | some _ => .error (.attrError "unsupported argument type")

/-- Python f-string rendering of a decoded JSON value, used only in the
`Unknown tool:` message (approximate for containers, which no claim
exercises). -/
def pyShow : JValue → String
  | .jstr s => s
  | .jnum s => s
  | .jbool true => "True"
  | .jbool false => "False"
  | .jnull => "None"
  | .jarr _ => "list"
  | .jobj _ => "dict"

/-- The tools of `_execute_tool` whose bodies are plain side-effecting
handlers with no confirmation logic; they are dispatched through
`ToolEnv.misc`.  (`media`, `read_file`, `write_file`, `list_files`,
`get_time`, `get_clipboard`, `type_text`, `press_key` are handled inline
in the source but have the same shape: run a side effect, return a
string, possibly raise.) -/
def knownMiscTools : List String :=
  ["open_app", "open_url", "web_search", "media", "play_music", "stop_music",
   "analyze_screen", "toggle_focus", "load_project", "add_task", "mark_complete",
   "log_blocker", "read_file", "write_file", "list_files", "get_time",
   "get_clipboard", "type_text", "press_key"]

/-- The tool dispatch of `AgenticBrain._execute_tool` (src/brain/llm.py
lines 309-455), after a successful JSON parse.  The `execute_powershell`
destructive branch calls `self._ask_for_permission(script)`; no such
method exists anywhere in the class or repository, so Python raises
`AttributeError` there. -/
def dispatchTool (env : ToolEnv) (st : BrainState) (fs : List (String × JValue)) :
    BranchOut × BrainState × List Effect :=
  match (pyDictGet fs "tool").getD (.jstr "") with
  | .jstr tool =>
    if tool = "run_command" then
      match getStrArg fs "command" with
      | .ok command =>
        if is_destructive_command command then
          (.val "Waiting for confirmation",
           { st with pending := some (PendingConf.mk command
              ("This may be destructive: " ++ command ++ ". Proceed, Sheriff?")) },
           [])
        else
          (.val (env.runCommandResult command), st, [.runCommand command])
      | .error e => (.raise e, st, [])
    else if tool = "execute_powershell" then
      match getStrArg fs "script" with
      | .ok script =>
        if is_destructive_command script then
          (.raise (.attrError
            "\x27AgenticBrain\x27 object has no attribute \x27_ask_for_permission\x27"),
           st, [])
        else
          match env.powershell script with
          | .ok r => (.val r, st, [.powershell script])
          | .error e => (.raise e, st, [.powershell script])
      | .error e => (.raise e, st, [])
    else if tool = "exit" then
      (.exitProc, st, [])
    else if knownMiscTools.contains tool then
      match env.misc tool fs with
      | .ok r => (.val r, st, [.toolCall tool])
      | .error e => (.raise e, st, [.toolCall tool])
    else
      (.val ("Unknown tool: " ++ tool), st, [])
  | v => (.val ("Unknown tool: " ++ pyShow v), st, [])

/-- The fixed parse-failure message of `_execute_tool`. -/
def confusedMsg : String :=
  "I tried to execute a command but got confused with the syntax, Sheriff."

/-- Stage 1 of `_execute_tool`: `start = response.find(U+007B)`,
`end = response.rfind(U+007D) + 1`, keep `response[start:end]` when
`start != -1 and end > start`.  `none` is the branch that returns the
raw response. -/
def firstJsonSpan (r : List Char) : Option (List Char) :=
  match strFind [lbrace] r, strRfind [rbrace] r with
  | some s, some e => if e + 1 > s then some (pySlice r s (e + 1)) else none
  | _, _ => none

/-- Stage 2 cleanup of `_execute_tool` (src/brain/llm.py lines 297-303):
strip markdown fences, re-slice to the outermost braces when present, and
feed the result to `json.loads`. -/
def cleanupClean (r : List Char) : List Char :=
  let c0 := stripChars (strReplace "```".data [] (strReplace "```json".data [] r))
  match strFind [lbrace] c0, strRfind [rbrace] c0 with
  | some s, some e => if e + 1 > s then pySlice c0 s (e + 1) else c0
  | _, _ => c0

/-- The cleanup parse attempt; `none` models the bare `except:` that
returns the confused message. -/
def cleanupParse (r : List Char) : Option JValue := jsonParse (cleanupClean r)

/-- The `except Exception` handler wrapping the dispatch
(src/brain/llm.py lines 460-462). -/
def guardToolExc : BranchOut → BranchOut
  | .raise e => .val ("Error: " ++ pyErrMsg e)
  | b => b

/-- `AgenticBrain._execute_tool`: locate the brace span (returning the
raw response when there is none), parse it with a markdown-cleanup
fallback (returning the confused message when both parses fail), then
dispatch, converting any `Exception` from a handler into an
`Error: ...` string.  The source's trailing
`except json.JSONDecodeError: return response` is unreachable: both
`json.loads` calls are already guarded by inner handlers.  A decoded
non-dict value makes `data.get` raise `AttributeError`, caught by the
same `except Exception`. -/
def executeTool (env : ToolEnv) (st : BrainState) (response : String) :
    BranchOut × BrainState × List Effect :=
  match firstJsonSpan response.data with
  | none => (.val response, st, [])
  | some sp =>
    match (match jsonParse sp with
           | some v => some v
           | none => cleanupParse response.data) with
    | none => (.val confusedMsg, st, [])
    | some (.jobj fs) =>
      let r := dispatchTool env st fs
      (guardToolExc r.1, r.2.1, r.2.2)
    | some _ =>
      (guardToolExc (.raise (.attrError "object has no attribute get")), st, [])

/-- The affirmative keyword set of `_handle_confirmation`, verbatim. -/
def affirmativeWords : List String := ["yes", "proceed", "do it", "confirm", "go"]

/-- The affirmative test of `_handle_confirmation`: some keyword is a
substring of the lowercased answer. -/
def isAffirmative (text : String) : Bool :=
  affirmativeWords.any (fun w => containsSub w.data (pyLower text.data))

/-- `AgenticBrain._handle_confirmation` (src/brain/llm.py lines 497-508):
affirmative answers run the stored command once and clear the pending
state; every other answer clears the pending state and cancels. -/
def handleConfirmation (env : ToolEnv) (st : BrainState) (p : PendingConf) (text : String) :
    String × BrainState × List Effect :=
  if isAffirmative text then
    ("Done. " ++ String.mk (pyTake 100 (env.runCommandResult p.command).data),
     { st with pending := none }, [.runCommand p.command])
  else
    ("Cancelled, Sheriff.", { st with pending := none }, [])

/-- The environment of one `think` call: the LLM completion for the
prompt built from the recalled context (the backend call may raise),
the recalled memory context and project alias that feed the prompt, and
the tool-handler results. -/
structure ThinkEnv where
  llm : Except PyErr String
  memContext : String
  projectAlias : Option String
  tools : ToolEnv

/-- The fixed outcome when `self._connected` is false. -/
def offlineMsg : String := "I\x27m offline, Sheriff. Check my configuration."

/-- The fixed outcome of `think`'s `except Exception` handler. -/
def agentErrorMsg : String := "I encountered an error, Sheriff."

/-- The body of `think` inside its `try` (src/brain/llm.py lines
179-222): answer a pending confirmation, otherwise complete the prompt,
then treat brace-led or tool-marked responses as structured actions.
The memory write `log_interaction` is recorded as an effect. -/
def thinkBody (env : ThinkEnv) (st : BrainState) (text : String) :
    BranchOut × BrainState × List Effect :=
  match st.pending with
  | some p =>
    let r := handleConfirmation env.tools st p text
    (.val r.1, r.2.1, r.2.2)
  | none =>
    match env.llm with
    | .error e => (.raise e, st, [])
    | .ok raw =>
      let response := String.mk (stripChars raw.data)
      if startsWith [lbrace] response.data ∨ containsSub ("\x7b\"tool\"".data) response.data then
        let r := executeTool env.tools st response
        match r.1 with
        | .val result =>
          match r.2.1.pending with
          | some q => (.val q.question, r.2.1, r.2.2)
          | none =>
            if result ≠ "" ∧ ¬containsSub "Error".data result.data then
              (.val result, r.2.1, r.2.2 ++ [.logInteraction])
            else
              (.val result, r.2.1, r.2.2)
        | b => (b, r.2.1, r.2.2)
      else
        (.val response, st, [])

/-- `think`'s `except Exception` handler (src/brain/llm.py lines
224-226): any `Exception` becomes the fixed error outcome; `SystemExit`
passes through. -/
def guardThinkExc : BranchOut → BranchOut
  | .raise _ => .val agentErrorMsg
  | b => b

/-- `AgenticBrain.think` (src/brain/llm.py lines 174-226). -/
def think (env : ThinkEnv) (st : BrainState) (text : String) :
    BranchOut × BrainState × List Effect :=
  if st.connected = false then (.val offlineMsg, st, [])
  else
    let r := thinkBody env st text
    (guardThinkExc r.1, r.2.1, r.2.2)

/-! ### src/main.py — conversation loop (wake word, latch, routing)

One iteration of `main_loop` either sees a too-short audio buffer (the
idle poll that checks the conversation timeout, lines 95-100) or a
transcribed text turn (lines 105-160).  Instants are integers: the
Python clock is real-valued, but every comparison in the loop is an
order/addition comparison, so integer instants express all the claims.
A text turn carries two clock readings: `t`, read at line 117 before
routing, and `tAfter`, read at line 156 after `process_interaction`
returns (only relevant when a command was emitted). -/

/-- `wake_word_variants` from src/main.py line 121, verbatim. -/
def wakeWordVariants : List String :=
  ["jarvis", "darius", "jervis", "jarv", "jaravis", "jarvi"]

/-- `conversation_timeout = 10.0` (src/main.py line 84). -/
def conversationTimeout : Int := 10

/-- The conversation state of `main_loop`: `in_conversation` and
`last_interaction_time`. -/
structure ConvState where
  inConversation : Bool
  lastInteraction : Int
deriving DecidableEq

/-- One observable input to an iteration of `main_loop`. -/
inductive LoopEvent where
  | emptyBuffer (t : Int)
  | turn (t : Int) (tAfter : Int) (text : String)

/-- Wake-word detection (src/main.py line 122): some variant occurs in
the lowercased text. -/
def wakeDetected (textLower : List Char) : Bool :=
  wakeWordVariants.any (fun v => containsSub v.data textLower)

/-- Command extraction after a wake trigger (src/main.py lines 132-136):
the first variant in list order that occurs in the lowercased text is
split off and the remainder is stripped. -/
def extractWakeCommand (textLower : List Char) : List Char :=
  match wakeWordVariants.find? (fun v => containsSub v.data textLower) with
  | some v =>
    match splitOnceAux v.data textLower with
    | some p => stripChars p.2
    | none => []
  | none => []

/-- One iteration of the routing logic of `main_loop` (src/main.py lines
95-160), returning the successor state and the command emitted to
`process_interaction`, if any. -/
def routerStep (s : ConvState) : LoopEvent → ConvState × Option String
  | .emptyBuffer t =>
    if s.inConversation ∧ t - s.lastInteraction > conversationTimeout then
      ({ s with inConversation := false }, none)
    else (s, none)
  | .turn t tAfter text =>
    let textLower := pyLower text.data
    if wakeDetected textLower then
      let command := extractWakeCommand textLower
      if command.isEmpty then
        ({ inConversation := true, lastInteraction := t }, none)
      else
        ({ inConversation := true, lastInteraction := tAfter }, some (String.mk command))
    else if s.inConversation then
      if text.length > 2 then
        ({ inConversation := true, lastInteraction := tAfter }, some text)
      else (s, none)
    else (s, none)

/-- Modelled from the spec (refinement reference for the wake-command
claim): detection succeeds when some variant occurs, and the command is
the substring of the lowercased text that follows the first matched
variant at its first occurrence, stripped.  Formulated with an explicit
occurrence index rather than the code's split scan. -/
def specWakeCommand (text : String) : Option String :=
  let tl := pyLower text.data
  match wakeWordVariants.find? (fun v => (strFind v.data tl).isSome) with
  | some v =>
    match strFind v.data tl with
    | some i => some (String.mk (stripChars (tl.drop (i + v.data.length))))
    | none => none
  | none => none

/-! ### src/main.py — `process_interaction` (lines 170-239)

`process_interaction` sends every command to `d_brain.think`; the file
contains no call to the reflex layer (`ReflexSpine.check_reflex` and the
`d_spine` singleton have no caller in the repository).  The hands
dispatcher `Hands.execute_action` catches every `Exception` and returns
a string, so it is summarised as a total function. -/

/-- Observable effects of `process_interaction`. -/
inductive MainEffect where
  | thinkCall (cmd : String)
  | handsExecute (action : String)
  | ttsSay (text : String)
  | memorize (entry : String)
  | brainEffect (e : Effect)
deriving DecidableEq

/-- How one `process_interaction` call ends: normally, by `SystemExit`
(the exit tool), or with a propagating exception. -/
inductive MainOut where
  | done
  | exited
  | raised (e : PyErr)
deriving DecidableEq

/-- Environment of one `process_interaction` call. -/
structure MainEnv where
  brain : ThinkEnv
  hands : String → String

/-- `process_interaction` (src/main.py lines 170-239): think, then treat
brace-led or `"tool":`-marked results as actions for the hands
dispatcher, otherwise speak the result. -/
def processInteraction (env : MainEnv) (st : BrainState) (userInput : String) :
    MainOut × BrainState × List MainEffect :=
  let r := think env.brain st userInput
  let effs := MainEffect.thinkCall userInput :: r.2.2.map .brainEffect
  match r.1 with
  | .exitProc => (.exited, r.2.1, effs)
  | .raise e => (.raised e, r.2.1, effs)
  | .val response =>
    let clean := String.mk (stripChars response.data)
    if startsWith [lbrace] clean.data ∨ containsSub "\"tool\":".data clean.data then
      let result := env.hands clean
      (.done, r.2.1,
       effs ++ [.handsExecute clean, .ttsSay result, .memorize ("Executed: " ++ result)])
    else
      (.done, r.2.1, effs ++ [.ttsSay clean])

/-! ### src/brain/reflex.py — `ReflexSpine.check_reflex`

The four compiled patterns are anchored full-string alternation matches
(`re.match` with a leading anchor and trailing anchor, `IGNORECASE`), so
they reduce to case-insensitive equality against the alternative lists;
the volume shortcuts are case-sensitive substring tests on the stripped
command.  The stop branch calls `d_tts.stop()`; `TTSEngine` defines no
`stop` method, so Python raises `AttributeError` there, and
`check_reflex` installs no handler.  `d_tts.speak` catches its own
errors; `webbrowser.open` and `subprocess.Popen` are recorded as
effects. -/

/-- Effects of a reflex action. -/
inductive ReflexEffect where
  | say (text : String)
  | openBrowser (url : String)
  | spawn (cmd : String)
deriving DecidableEq

/-- The stop-pattern alternatives, verbatim. -/
def reflexStopWords : List String := ["stop", "quiet", "silence", "shut up", "mute"]

/-- The open-url alternatives, verbatim. -/
def reflexUrlTargets : List String := ["google", "youtube", "reddit", "github", "gmail", "mail"]

/-- The open-app alternatives, verbatim. -/
def reflexAppTargets : List String :=
  ["calc", "calculator", "notepad", "cmd", "terminal", "explorer", "spotify", "code", "vscode"]

/-- The time-query alternatives, verbatim. -/
def reflexTimePhrases : List String := ["what time is it", "time check", "current time"]

/-- Anchored case-insensitive alternation match. -/
def matchesAlt (alts : List String) (cmd : List Char) : Bool :=
  alts.any (fun w => pyLower cmd == w.data)

/-- The open-url pattern: `open <target>` with an optional `.com`
suffix; returns the captured target. -/
def matchUrlTarget (cmd : List Char) : Option String :=
  reflexUrlTargets.find? (fun tgt =>
    pyLower cmd == ("open " ++ tgt).data ∨ pyLower cmd == ("open " ++ tgt ++ ".com").data)

/-- The open-app pattern: `open <app>`; returns the captured app. -/
def matchAppTarget (cmd : List Char) : Option String :=
  reflexAppTargets.find? (fun a => pyLower cmd == ("open " ++ a).data)

/-- Environment of a reflex check (the formatted current time used by
the time branch). -/
structure ReflexEnv where
  nowTime : String

/-- `ReflexSpine.check_reflex` (src/brain/reflex.py lines 25-97).  The
stop branch is checked first and raises `AttributeError` because
`d_tts.stop` does not exist. -/
def checkReflex (env : ReflexEnv) (command : String) : Except PyErr Bool × List ReflexEffect :=
  let cmd := stripChars command.data
  if matchesAlt reflexStopWords cmd then
    (.error (.attrError "\x27TTSEngine\x27 object has no attribute \x27stop\x27"), [])
  else
    match matchUrlTarget cmd with
    | some target =>
      let url := if target = "gmail" ∨ target = "mail" then "https://mail.google.com"
                 else "https://www." ++ target ++ ".com"
      (.ok true, [.say ("Opening " ++ target ++ "."), .openBrowser url])
    | none =>
      match matchAppTarget cmd with
      | some app => (.ok true, [.say ("Opening " ++ app ++ "."), .spawn app])
      | none =>
        if matchesAlt reflexTimePhrases cmd then
          (.ok true, [.say ("It is " ++ env.nowTime ++ ".")])
        else if containsSub "volume up".data cmd ∨ containsSub "turn it up".data cmd then
          (.ok true, [.spawn "sendkeys-volume-up"])
        else if containsSub "volume down".data cmd ∨ containsSub "turn it down".data cmd
            ∨ containsSub "turn down".data cmd then
          (.ok true,
           [.spawn "sendkeys-volume-down", .spawn "sendkeys-volume-down",
            .spawn "sendkeys-volume-down"])
        else if containsSub "mute".data cmd ∨ containsSub "unmute".data cmd then
          (.ok true, [.spawn "sendkeys-mute"])
        else (.ok false, [])

/-! ### src/senses/tts.py — `TTSEngine` -/

/-- The TTS engine state relevant to the claims: `_is_speaking`,
`_interrupt_requested` and `_file_counter`. -/
structure TTSState where
  isSpeaking : Bool
  interruptRequested : Bool
  fileCounter : Nat
deriving DecidableEq

/-- pygame-level effects of the TTS engine. -/
inductive TTSEffect where
  | mixerStop
  | mixerUnload
deriving DecidableEq

/-- `TTSEngine.interrupt` (src/senses/tts.py lines 42-51): only when
speaking, set the interruption flag and stop/unload the mixer (both
wrapped in a pass-all handler, so the call never raises). -/
def ttsInterrupt (s : TTSState) : TTSState × List TTSEffect :=
  if s.isSpeaking then
    ({ s with interruptRequested := true }, [.mixerStop, .mixerUnload])
  else (s, [])

/-- The fault environment of one `speak` call: whether `edge_tts`
synthesis raises, whether the generated file exists with at least 100
bytes, whether pygame raises during playback (caught inside
`_play_audio`, hence recorded but unable to change the outcome), and
whether a concurrent `interrupt` fired during playback. -/
structure SpeakEnv where
  synthRaises : Option PyErr
  fileValid : Bool
  playRaises : Option PyErr
  interruptedDuring : Bool

/-- Result of one `speak` call: the final engine state, whether playback
was entered, and the value `_is_speaking` held when playback started. -/
structure SpeakResult where
  final : TTSState
  enteredPlayback : Bool
  speakingAtPlayback : Bool
deriving DecidableEq

/-- `TTSEngine.speak` (src/senses/tts.py lines 53-96): short texts
return before touching any flag; otherwise the speaking flag is raised,
the counter bumped, and the `finally` clause lowers the flag on every
path (synthesis failure, invalid output file, playback error or
interruption, normal completion). -/
def ttsSpeakRun (s : TTSState) (text : String) (env : SpeakEnv) : SpeakResult :=
  if text.data.isEmpty ∨ (stripChars text.data).length < 2 then
    ⟨s, false, false⟩
  else
    let s1 : TTSState := { s with interruptRequested := false, isSpeaking := true }
    let s2 : TTSState := { s1 with fileCounter := s1.fileCounter + 1 }
    match env.synthRaises with
    | some _ => ⟨{ s2 with isSpeaking := false }, false, false⟩
    | none =>
      if ¬env.fileValid then ⟨{ s2 with isSpeaking := false }, false, false⟩
      else
        let s3 : TTSState :=
          if env.interruptedDuring then { s2 with interruptRequested := true } else s2
        ⟨{ s3 with isSpeaking := false }, true, s2.isSpeaking⟩

/-! ### Sample environments for concrete evaluations -/

/-- A sample tool environment whose external calls all succeed. -/
def sampleToolEnv : ToolEnv :=
  ⟨fun _ => "ran-ok", fun _ => Except.ok "ps-ok", fun _ _ => Except.ok "misc-ok"⟩

/-- A sample think environment over `sampleToolEnv`. -/
def sampleThinkEnv : ThinkEnv := ⟨Except.ok "hello", "", none, sampleToolEnv⟩

/-! ## Theorems -/

/-- `splitOnceAux` agrees with the index-based description of the first
occurrence: the "after" part is everything past the occurrence. -/
theorem splitOnceAux_eq_strFind (sep : List Char) (hay : List Char) :
    splitOnceAux sep hay =
      (strFind sep hay).map (fun i => (hay.take i, hay.drop (i + sep.length))) := by
  induction hay with
  | nil =>
    by_cases h : sep.isEmpty
    · simp [splitOnceAux, strFind, h]
    · simp [splitOnceAux, strFind, h]
  | cons c t ih =>
    by_cases h : sep.isPrefixOf (c :: t)
    · simp [splitOnceAux, strFind, h]
    · simp only [splitOnceAux, strFind, h, if_neg, Bool.false_eq_true, ite_false, ih]
      cases hf : strFind sep t with
      | none => simp
      | some i =>
        simp [List.take_succ_cons, List.drop_succ_cons, Nat.succ_add]

/-- C1: a destructive `execute_powershell` request does not behave as the
confirmation protocol specifies: `_execute_tool` calls the nonexistent
method `_ask_for_permission`, so Python raises `AttributeError`, the
`except Exception` handler turns it into an `Error: ...` outcome, the
pending-confirmation state is never set, no confirmation question is
returned, and the script is not executed.  This theorem evaluates the
embedded code at such a request: the script is classified destructive,
yet `think` returns the error outcome with `pending` still `none` and an
empty effect trace. -/
theorem C1_execute_powershell_pending_never_set :
    is_destructive_command "Remove-Item temp" = true
  ∧ think
      { sampleThinkEnv with
        llm := Except.ok
          "\x7b\"tool\": \"execute_powershell\", \"script\": \"Remove-Item temp\"\x7d" }
      ⟨true, none⟩ "remove the temp file" =
    (.val "Error: \x27AgenticBrain\x27 object has no attribute \x27_ask_for_permission\x27",
     ⟨true, none⟩, []) :=
  ⟨rfl, rfl⟩

/-- C4: a command matching the stop/silence reflex pattern does not
return `handled = true`: the stop branch of `check_reflex` calls
`d_tts.stop()`, a method `TTSEngine` does not define, so the call raises
`AttributeError` instead of cancelling playback and returning normally.
Evaluated at the command `stop`: the stop pattern matches (so it does
take precedence), but the result is the propagating exception and no
effect is performed. -/
theorem C4_stop_reflex_raises_attribute_error :
    matchesAlt reflexStopWords (stripChars "stop".data) = true
  ∧ checkReflex ⟨"04:37 PM"⟩ "stop" =
      (.error (.attrError "\x27TTSEngine\x27 object has no attribute \x27stop\x27"), []) :=
  ⟨rfl, rfl⟩

/-- C9: the speaking-state invariant of `TTSEngine.speak`: starting from
a non-speaking engine, after `speak` returns the flag is false on every
fault path (synthesis failure, invalid output file, playback error,
interruption, normal completion), and whenever playback is entered the
flag is true at that point. -/
theorem C9_speak_flag_invariant (s : TTSState) (text : String) (env : SpeakEnv)
    (h : s.isSpeaking = false) :
    (ttsSpeakRun s text env).final.isSpeaking = false
  ∧ ((ttsSpeakRun s text env).enteredPlayback = true →
      (ttsSpeakRun s text env).speakingAtPlayback = true) := by
  unfold ttsSpeakRun
  split
  · simp [h]
  · cases env.synthRaises with
    | some e => simp
    | none =>
      by_cases hv : env.fileValid
      · simp [hv]
      · simp [hv]

/-- Witness for C9 at a concrete non-speaking state, valid text and
fault-free environment. -/
theorem C9_speak_flag_invariant_witness :
    (ttsSpeakRun ⟨false, false, 0⟩ "hello there" ⟨none, true, none, false⟩).final.isSpeaking
      = false :=
  (C9_speak_flag_invariant ⟨false, false, 0⟩ "hello there" ⟨none, true, none, false⟩ rfl).1

/-- C10: `TTSEngine.interrupt` is a no-op when the engine is not
speaking: the state (including the interruption flag and the speaking
flag) is unchanged, no mixer call is made and nothing is raised, and a
repeated call equals a single call. -/
theorem C10_interrupt_idempotent (s : TTSState) (h : s.isSpeaking = false) :
    ttsInterrupt s = (s, [])
  ∧ ttsInterrupt (ttsInterrupt s).1 = ttsInterrupt s := by
  constructor
  · simp [ttsInterrupt, h]
  · simp [ttsInterrupt, h]

/-- Witness for C10 at a concrete non-speaking state. -/
theorem C10_interrupt_idempotent_witness :
    ttsInterrupt ⟨false, false, 3⟩ = (⟨false, false, 3⟩, []) :=
  (C10_interrupt_idempotent ⟨false, false, 3⟩ rfl).1

/-- C3 counterexample: latched at time 0 with timeout 10, a non-wake-word
turn arriving at time 11 (after the deadline, with no latch reactivation
and no idle poll in between) is still accepted as a command, because the
deadline is only examined in the short-buffer branch of the loop, never
when a transcribed turn arrives.  The claim says such a turn is
rejected. -/
theorem C3_counterexample_late_turn_accepted :
    wakeDetected (pyLower "what time is it".data) = false
  ∧ (0 : Int) + conversationTimeout < 11
  ∧ routerStep ⟨true, 0⟩ (.turn 11 11 "what time is it") =
      (⟨true, 11⟩, some "what time is it") :=
  ⟨rfl, by decide, rfl⟩

/-- C3 amended: once latched, a non-wake-word turn longer than 2
characters is accepted as a command regardless of how much time has
passed; the latched-to-idle transition happens only on an idle poll
(short/empty audio buffer) whose time strictly exceeds the deadline, and
only after such a poll does a non-wake-word turn get rejected; a poll at
or before the deadline changes nothing. -/
theorem C3_amended_latch_only_expires_on_idle_poll :
    (∀ (s : ConvState) (t tAfter : Int) (text : String),
        s.inConversation = true → wakeDetected (pyLower text.data) = false →
        2 < text.length →
        routerStep s (.turn t tAfter text) = (⟨true, tAfter⟩, some text))
  ∧ (∀ (s : ConvState) (t : Int),
        s.inConversation = true → s.lastInteraction + conversationTimeout < t →
        routerStep s (.emptyBuffer t) = (⟨false, s.lastInteraction⟩, none))
  ∧ (∀ (s : ConvState) (t : Int),
        t ≤ s.lastInteraction + conversationTimeout →
        routerStep s (.emptyBuffer t) = (s, none))
  ∧ (∀ (s : ConvState) (t tAfter : Int) (text : String),
        s.inConversation = false → wakeDetected (pyLower text.data) = false →
        routerStep s (.turn t tAfter text) = (s, none)) := by
  refine ⟨?_, ?_, ?_, ?_⟩
  · intro s t tAfter text hc hw hl
    simp [routerStep, hw, hc, hl]
  · intro s t hc hd
    have : s.inConversation ∧ t - s.lastInteraction > conversationTimeout :=
      ⟨by simp [hc], by omega⟩
    simp only [routerStep, if_pos this]
  · intro s t hd
    have : ¬(s.inConversation ∧ t - s.lastInteraction > conversationTimeout) := by
      rintro ⟨-, h2⟩; omega
    simp only [routerStep, if_neg this]
  · intro s t tAfter text hc hw
    simp [routerStep, hw, hc]

/-- Witness for the amended C3 at concrete instants: acceptance of a
late non-wake turn while latched, expiry on an idle poll past the
deadline, no expiry at the deadline, rejection when unlatched. -/
theorem C3_amended_latch_witness :
    routerStep ⟨true, 0⟩ (.turn 5 6 "open the door") = (⟨true, 6⟩, some "open the door")
  ∧ routerStep ⟨true, 0⟩ (.emptyBuffer 11) = (⟨false, 0⟩, none)
  ∧ routerStep ⟨true, 0⟩ (.emptyBuffer 10) = (⟨true, 0⟩, none)
  ∧ routerStep ⟨false, 0⟩ (.turn 3 4 "open the door") = (⟨false, 0⟩, none) :=
  ⟨C3_amended_latch_only_expires_on_idle_poll.1 ⟨true, 0⟩ 5 6 "open the door" rfl rfl
     (by decide),
   C3_amended_latch_only_expires_on_idle_poll.2.1 ⟨true, 0⟩ 11 rfl (by decide),
   C3_amended_latch_only_expires_on_idle_poll.2.2.1 ⟨true, 0⟩ 10 (by decide),
   C3_amended_latch_only_expires_on_idle_poll.2.2.2 ⟨false, 0⟩ 3 4 "open the door" rfl rfl⟩

/-- C5: while a pending confirmation exists (which implies the brain is
connected, as the pending state is only reachable through a connected
think call), the turn is routed to `_handle_confirmation`: it is
classified affirmative exactly when the lowercased text contains one of
yes/proceed/do it/confirm/go; an affirmative answer runs the stored
command exactly once (one `runCommand` effect), clears the pending state
and returns the result; every other answer clears the pending state and
returns the fixed cancellation message — there is no third outcome. -/
theorem C5_confirmation_two_outcomes (env : ThinkEnv) (st : BrainState) (p : PendingConf)
    (text : String) (hc : st.connected = true) (hp : st.pending = some p) :
    (isAffirmative text =
       affirmativeWords.any (fun w => containsSub w.data (pyLower text.data)))
  ∧ (isAffirmative text = true →
       think env st text =
         (.val ("Done. " ++ String.mk (pyTake 100 (env.tools.runCommandResult p.command).data)),
          { st with pending := none }, [.runCommand p.command]))
  ∧ (isAffirmative text = false →
       think env st text = (.val "Cancelled, Sheriff.", { st with pending := none }, [])) := by
  refine ⟨rfl, ?_, ?_⟩ <;> intro h <;>
    simp [think, hc, thinkBody, hp, handleConfirmation, h, guardThinkExc]

/-- Witness for C5: a concrete affirmative answer to a concrete pending
destructive command executes it once and clears the pending state. -/
theorem C5_confirmation_witness :
    think sampleThinkEnv ⟨true, some ⟨"rm -rf /tmp/x", "q"⟩⟩ "yes" =
      (.val ("Done. " ++
         String.mk (pyTake 100 (sampleToolEnv.runCommandResult "rm -rf /tmp/x").data)),
       ⟨true, none⟩, [.runCommand "rm -rf /tmp/x"]) :=
  (C5_confirmation_two_outcomes sampleThinkEnv ⟨true, some ⟨"rm -rf /tmp/x", "q"⟩⟩
     ⟨"rm -rf /tmp/x", "q"⟩ "yes" rfl rfl).2.1 rfl

/-- C6 counterexample: the command `what time is it` matches the time
reflex pattern and `check_reflex` would handle it (returning true), yet
`process_interaction` still forwards it to the agent's `think` step —
the reflex layer has no caller anywhere in the repository. -/
theorem C6_counterexample_reflex_command_forwarded :
    (checkReflex ⟨"04:37 PM"⟩ "what time is it").1 = .ok true
  ∧ ((processInteraction
        ⟨{ sampleThinkEnv with llm := Except.ok "It is noon, Sheriff." }, fun a => a⟩
        ⟨true, none⟩ "what time is it").2.2).head? =
      some (.thinkCall "what time is it") :=
  ⟨rfl, rfl⟩

/-- C6 amended: the reflex layer is dead code — `check_reflex` is never
invoked by the pipeline; `process_interaction` forwards every command,
reflex-matching or not, to the agent's think step (the first effect of
every call is the think invocation on the unmodified command). -/
theorem C6_amended_every_command_forwarded (env : MainEnv) (st : BrainState) (input : String) :
    ((processInteraction env st input).2.2).head? = some (.thinkCall input) := by
  unfold processInteraction
  cases h : (think env.brain st input).1 with
  | val response => simp only [h]; split <;> simp
  | raise e => simp [h]
  | exitProc => simp [h]

/-- C2 counterexample: a structured response with unbalanced braces is
not turned into the fixed confused message — `_execute_tool` returns the
raw unparsed text.  With the truncated object (no closing brace) the
brain's action-execution step returns the response verbatim, and with a
response that contains the tool marker but no closing brace the raw text
even reaches the spoken outcome of `process_interaction` verbatim. -/
theorem C2_counterexample_unbalanced_braces_raw_returned :
    (executeTool sampleToolEnv ⟨true, none⟩ "\x7b\"tool\": \"get_time\"").1 =
      .val "\x7b\"tool\": \"get_time\""
  ∧ ((processInteraction
        ⟨{ sampleThinkEnv with llm := Except.ok "x \x7b\"tool\" y" }, fun a => a⟩
        ⟨true, none⟩ "do something").2.2).getLast? = some (.ttsSay "x \x7b\"tool\" y")
  ∧ ("x \x7b\"tool\" y" : String) ≠ confusedMsg
  ∧ ("\x7b\"tool\": \"get_time\"" : String) ≠ confusedMsg :=
  ⟨rfl, rfl, by decide, by decide⟩

/-- C2 amended: when the structured response does contain a
brace-delimited span (a first opening brace with a closing brace after
it) and that span fails to parse as JSON even after the markdown-fence
cleanup, the action-execution step returns exactly the fixed confused
message, never the raw text; only a response with unbalanced braces is
returned raw. -/
theorem C2_amended_existing_span_parse_failure_confused (env : ToolEnv) (st : BrainState)
    (response : String) (sp : List Char)
    (h1 : firstJsonSpan response.data = some sp)
    (h2 : jsonParse sp = none)
    (h3 : cleanupParse response.data = none) :
    executeTool env st response = (.val confusedMsg, st, []) := by
  simp [executeTool, h1, h2, h3]

/-- Witness for the amended C2 at a concrete malformed span. -/
theorem C2_amended_witness :
    executeTool sampleToolEnv ⟨true, none⟩ "\x7boops\x7d" =
      (.val confusedMsg, ⟨true, none⟩, []) :=
  C2_amended_existing_span_parse_failure_confused sampleToolEnv ⟨true, none⟩
    "\x7boops\x7d" ("\x7boops\x7d".data) rfl rfl rfl

/-- C7: `think` never lets an `Exception` escape: its result is never a
propagating exception for any environment (including raising tool
handlers and a raising backend); a disconnected backend yields the fixed
offline outcome; a backend call that raises resolves to the fixed error
outcome; the tool dispatch converts every handler exception into an
`Error: ...` textual result.  (`SystemExit` from the explicit exit tool
is deliberate termination, modelled separately as `exitProc`, not an
`Exception`.) -/
theorem C7_think_never_raises (env : ThinkEnv) (st : BrainState) (text : String) :
    (∀ e : PyErr, (think env st text).1 ≠ .raise e)
  ∧ (st.connected = false → think env st text = (.val offlineMsg, st, []))
  ∧ (∀ e : PyErr, st.connected = true → st.pending = none → env.llm = .error e →
       think env st text = (.val agentErrorMsg, st, []))
  ∧ (∀ (response : String) (e : PyErr), (executeTool env.tools st response).1 ≠ .raise e)
  ∧ (∀ e : PyErr, guardToolExc (.raise e) = .val ("Error: " ++ pyErrMsg e)) := by
  refine ⟨?_, ?_, ?_, ?_, ?_⟩
  · intro e
    unfold think
    by_cases hc : st.connected = false
    · simp [hc]
    · rw [if_neg hc]
      cases h : (thinkBody env st text).1 <;> simp [guardThinkExc, h]
  · intro hc
    simp [think, hc]
  · intro e hc hp hllm
    simp [think, hc, thinkBody, hp, hllm, guardThinkExc]
  · intro response e
    unfold executeTool
    cases h1 : firstJsonSpan response.data with
    | none => simp
    | some sp =>
      cases h2 : (match jsonParse sp with
                  | some v => some v
                  | none => cleanupParse response.data) with
      | none => simp [h2]
      | some data =>
        cases data with
        | jobj fs =>
          cases h3 : (dispatchTool env.tools st fs).1 <;> simp [h2, guardToolExc, h3]
        | jnull => simp [h2, guardToolExc]
        | jbool b => simp [h2, guardToolExc]
        | jnum s => simp [h2, guardToolExc]
        | jstr s => simp [h2, guardToolExc]
        | jarr xs => simp [h2, guardToolExc]
  · intro e
    rfl

/-- Witness for C7 at a raising backend: the turn resolves to the fixed
error outcome instead of propagating the exception. -/
theorem C7_think_never_raises_witness :
    think { sampleThinkEnv with llm := Except.error (.exc "boom") } ⟨true, none⟩ "hi" =
      (.val agentErrorMsg, ⟨true, none⟩, []) :=
  (C7_think_never_raises { sampleThinkEnv with llm := Except.error (.exc "boom") }
     ⟨true, none⟩ "hi").2.2.1 (.exc "boom") rfl rfl rfl

/-- C8: whenever some wake-phrase variant occurs in the lowercased turn
text, the router detects a wake trigger, and the command emitted by the
code's split-based extraction equals the spec's description: the
substring of the lowercased text following the first matched variant at
its first occurrence, stripped of surrounding whitespace. -/
theorem C8_wake_command_extraction (text : String)
    (h : wakeDetected (pyLower text.data) = true) :
    (specWakeCommand text).isSome = true
  ∧ specWakeCommand text = some (String.mk (extractWakeCommand (pyLower text.data))) := by
  have hex : ∃ v ∈ wakeWordVariants, containsSub v.data (pyLower text.data) = true := by
    simpa [wakeDetected, List.any_eq_true] using h
  have hsome :
      (wakeWordVariants.find? (fun v => containsSub v.data (pyLower text.data))).isSome := by
    rw [List.find?_isSome]
    obtain ⟨v, hv1, hv2⟩ := hex
    exact ⟨v, hv1, hv2⟩
  obtain ⟨v, hv⟩ := Option.isSome_iff_exists.mp hsome
  have hvc : containsSub v.data (pyLower text.data) = true := by
    have hq := List.find?_some hv
    simpa using hq
  obtain ⟨i, hi⟩ : ∃ i, strFind v.data (pyLower text.data) = some i := by
    simpa [containsSub, Option.isSome_iff_exists] using hvc
  have hv2 :
      wakeWordVariants.find? (fun v => (strFind v.data (pyLower text.data)).isSome) = some v :=
    hv
  constructor
  · simp [specWakeCommand, hv2, hi]
  · simp [specWakeCommand, extractWakeCommand, hv, hv2, hi, splitOnceAux_eq_strFind]

/-- Witness for C8 at a concrete wake turn. -/
theorem C8_wake_command_extraction_witness :
    specWakeCommand "hey jarvis open spotify" =
      some (String.mk (extractWakeCommand (pyLower "hey jarvis open spotify".data))) :=
  (C8_wake_command_extraction "hey jarvis open spotify" rfl).2

end Jarvis
